import Mathlib

/-
Verification development for the TranscribeMe repository
(src/transcribe_me: models.py, config.py, phone_handler.py,
transcription.py, main.py).

The embedding below translates the call-lifecycle pipeline into Lean:
Python strings are Lean `String`s manipulated through their underlying
character lists, Python dicts are association lists with first-match
lookup and overwrite-on-set, timestamps are abstract `Nat` instants
(`datetime.utcnow()` becomes an explicit `now` argument, `timedelta(days=n)`
becomes `+ n` in the same abstract units), and each external gateway call
(OpenAI Whisper, OpenAI chat completion, Twilio SMS) is an explicit oracle
value: `Option String` for a call that either yields text or raises, and
`Bool` for Twilio message creation succeeding.  Exception-driven control
flow becomes explicit branching on those oracles; the only exception that
can escape a gateway wrapper in `process_transcription` is the explicit
`raise Exception("Transcription failed")`, since `transcribe_audio`,
`format_transcript`, `generate_summary` and `send_sms` each catch all
exceptions internally.
-/

/-- Python dict membership/lookup (`d[k]`, `k in d`): first matching key. -/
def dictGet {α : Type} : List (String × α) → String → Option α
  | [], _ => none
  | (k', v) :: rest, k => if k' = k then some v else dictGet rest k

/-- Python dict assignment `d[k] = v`: overwrite in place, else append. -/
def dictSet {α : Type} : List (String × α) → String → α → List (String × α)
  | [], k, v => [(k, v)]
  | (k', v') :: rest, k, v =>
    if k' = k then (k, v) :: rest else (k', v') :: dictSet rest k v

/-- Python `del d[k]`: remove the first binding of `k`. -/
def dictDel {α : Type} : List (String × α) → String → List (String × α)
  | [], _ => []
  | (k', v') :: rest, k => if k' = k then rest else (k', v') :: dictDel rest k

/-- Python `s.startswith(p)` on code points. -/
def pyStartsWith (s p : String) : Bool := p.data.isPrefixOf s.data

/-- Python `s[n:]` on code points. -/
def pyDrop (s : String) (n : Nat) : String := String.mk (s.data.drop n)

/-- Python `s[:n]` on code points. -/
def pyTake (s : String) (n : Nat) : String := String.mk (s.data.take n)

/-- Python `len(s)` on code points. -/
def pyLen (s : String) : Nat := s.data.length

/-- models.CallStatus (models.py:10-18). -/
inductive CallStatus where
  | initiated
  | recording
  | transcribing
  | formatting
  | completed
  | failed
deriving DecidableEq

/-- models.TranscriptFormat (models.py:21-27). -/
inductive TranscriptFormat where
  | email
  | notes
  | meeting
  | raw
deriving DecidableEq

/-- models.CallRecord (models.py:30-45).  Field defaults mirror the pydantic
defaults; `created_at` (default_factory=utcnow) is an explicit instant. -/
structure CallRecord where
  call_sid : String
  from_number : String
  to_number : String
  status : CallStatus := CallStatus.initiated
  recording_url : Option String := none
  raw_transcript : Option String := none
  formatted_transcript : Option String := none
  transcript_format : TranscriptFormat := TranscriptFormat.notes
  transcript_id : Option String := none
  sms_sent : Bool := false
  created_at : Nat := 0
  expires_at : Option Nat := none
  error_message : Option String := none
deriving DecidableEq

/-- models.TranscriptResponse (models.py:48-55): the stored Transcript Entry. -/
structure TranscriptResponse where
  id : String
  content : String
  format : TranscriptFormat
  created_at : Nat
  expires_at : Option Nat
deriving DecidableEq

/-- config.Settings.allowed_country_codes (config.py:27). -/
def allowed_country_codes : List String := ["+64"]

/-- config.Settings.transcript_expiry_days (config.py:23), in abstract
time units matching the `Nat` instants of the model. -/
def transcript_expiry_days : Nat := 7

/-- The cleaning step of PhoneHandler.is_mobile_number (phone_handler.py:32-37):
remove every space, hyphen and parenthesis. -/
def clean_number (phone_number : String) : String :=
  String.mk (phone_number.data.filter
    (fun c => c != ' ' && c != '-' && c != '(' && c != ')'))

/-- The country-code loop of PhoneHandler.is_mobile_number
(phone_handler.py:40-53), over an already cleaned number.  For "+64" with at
least 8 digits after the code the decision is the mobile sub-code check
(21/22/27/29); with fewer than 8 the Python `if` falls through to the next
loop iteration; a non-"+64" code answers by the length check; no matching
code answers False. -/
def is_mobile_number_loop : List String → String → Bool
  | [], _ => false
  | country_code :: rest, cleaned =>
    if pyStartsWith cleaned country_code then
      if country_code = "+64" then
        let number_without_country := pyDrop cleaned 3
        if 8 ≤ pyLen number_without_country then
          pyStartsWith number_without_country "21" ||
          pyStartsWith number_without_country "22" ||
          pyStartsWith number_without_country "27" ||
          pyStartsWith number_without_country "29"
        else
          is_mobile_number_loop rest cleaned
      else
        10 ≤ pyLen cleaned
    else
      is_mobile_number_loop rest cleaned

/-- PhoneHandler.is_mobile_number (phone_handler.py:21-53): the Eligibility
Filter. -/
def is_mobile_number (phone_number : String) : Bool :=
  is_mobile_number_loop allowed_country_codes (clean_number phone_number)

/-- Result of TranscriptionService.format_transcript together with whether the
chat-completion gateway was invoked (the `self.client.chat.completions.create`
call inside the `try` block). -/
structure FormatResult where
  text : String
  gateway_invoked : Bool
deriving DecidableEq

/-- TranscriptionService.format_transcript (transcription.py:64-121).
`gw` is the gateway oracle: `some t` when the chat completion succeeds with
stripped content `t`, `none` when anything in the `try` block raises (the
`except` returns the raw text).  The RAW early return at lines 94-95 happens
before the `try`, so no gateway call is made. -/
def format_transcript (raw_text : String) (format_type : TranscriptFormat)
    (gw : Option String) : FormatResult :=
  if format_type = TranscriptFormat.raw then
    { text := raw_text, gateway_invoked := false }
  else
    match gw with
    | some formatted_text => { text := formatted_text, gateway_invoked := true }
    | none => { text := raw_text, gateway_invoked := true }

/-- TranscriptionService.generate_summary (transcription.py:123-158).
`gw` is the summarisation gateway oracle: `some s` when the chat completion
succeeds with stripped content `s` (the code then returns `s[:max_length]`),
`none` when it raises (the `except` returns
`text[:max_length] + "..." if len(text) > max_length else text`).
The Python signature's default is `max_length = 160`. -/
def generate_summary (text : String) (max_length : Nat := 160)
    (gw : Option String := none) : String :=
  if pyLen text ≤ max_length then
    text
  else
    match gw with
    | some summary => pyTake summary max_length
    | none =>
      if max_length < pyLen text then pyTake text max_length ++ "..." else text

/-- The per-call gateway environment of one pipeline run: the oracle results
of the three external gateways, the fresh uuid4 for the transcript, and the
`datetime.utcnow()` instant observed at publication time. -/
structure GatewayEnv where
  stt : Option String
  formatter : Option String
  summarizer : Option String
  sms_ok : Bool
  fresh_id : String
  now : Nat
deriving DecidableEq

/-- Observable outcome of one run of main.process_transcription: the final
Call Record, the Transcript Entry inserted into `transcripts` (if any), the
SMS preview text passed to the message body, and whether
PhoneHandler.send_sms was invoked at all. -/
structure PipelineResult where
  record : CallRecord
  published : Option TranscriptResponse
  sms_attempted : Bool
  sms_preview : Option String
deriving DecidableEq

/-- main.process_transcription (main.py:101-154).  `transcribe_audio`
(transcription.py:20-62) catches all exceptions and returns None, which the
orchestrator turns into `raise Exception("Transcription failed")`; an empty
string is also falsy and raises the same way.  That raise is the only
exception reaching the `except` at line 151, since `format_transcript`,
`generate_summary` and `send_sms` catch internally; on it the record is set
FAILED with `error_message = str(e)`.  On the success path the record is
mutated through FORMATTING, the Transcript Entry is built and handed back for
insertion, the summary is generated with bound 100 (main.py:134), the SMS is
attempted (its success stored in `sms_sent`), and the record ends COMPLETED.
The SMS body text (main.py:137-142) is composed from the summary, a URL and a
rendered date; only its summary component is modelled, as `sms_preview`. -/
def process_transcription (call_record : CallRecord) (env : GatewayEnv) :
    PipelineResult :=
  let failedRun : PipelineResult :=
    { record := { call_record with
        status := CallStatus.failed,
        error_message := some "Transcription failed" },
      published := none, sms_attempted := false, sms_preview := none }
  match env.stt with
  | none => failedRun
  | some raw_transcript =>
    if raw_transcript = "" then
      failedRun
    else
      let r1 := { call_record with
        raw_transcript := some raw_transcript,
        status := CallStatus.formatting }
      let fr := format_transcript raw_transcript call_record.transcript_format
        env.formatter
      let r2 := { r1 with formatted_transcript := some fr.text }
      let expires := env.now + transcript_expiry_days
      let r3 := { r2 with
        transcript_id := some env.fresh_id,
        expires_at := some expires }
      let entry : TranscriptResponse :=
        { id := env.fresh_id
          content := fr.text
          format := call_record.transcript_format
          created_at := call_record.created_at
          expires_at := some expires }
      let summary := generate_summary fr.text 100 env.summarizer
      let sms_sent := env.sms_ok
      { record := { r3 with
          sms_sent := sms_sent,
          status := CallStatus.completed },
        published := some entry,
        sms_attempted := true,
        sms_preview := some summary }

/-- The module-level mutable state of main.py: the `call_records` and
`transcripts` dicts (main.py:33-34). -/
structure ServerState where
  call_records : List (String × CallRecord)
  transcripts : List (String × TranscriptResponse)
deriving DecidableEq

/-- HTTP-visible outcome of main.handle_voice_webhook. -/
inductive VoiceOutcome where
  /-- The endpoint raises AttributeError (a 500 response); the flag records
  the Eligibility Filter decision the TwiML of line 66 was built from. -/
  | attribute_error (rejected : Bool)
deriving DecidableEq

/-- main.handle_voice_webhook (main.py:54-76).  Line 66 builds the TwiML via
PhoneHandler.handle_incoming_call (phone_handler.py:55-119), which rejects
with a hangup message exactly when `is_mobile_number From` is false and
creates only a local, never stored, CallRecord on acceptance.  The record
construction at lines 69-74 then evaluates `CallStatus.RECORDING` where
`CallStatus` is the `str` form parameter of line 60 (it shadows the
models.CallStatus enum imported at line 13), so every invocation raises
AttributeError before the assignment into `call_records`: the state is
returned unchanged and the endpoint answers 500 for accepted and rejected
callers alike. -/
def handle_voice_webhook (st : ServerState)
    (CallSid From To CallStatusField : String) : ServerState × VoiceOutcome :=
  let rejected := !is_mobile_number From
  (st, VoiceOutcome.attribute_error rejected)

/-- main.handle_recording_webhook (main.py:79-98).  The only guard is dict
membership of `CallSid` (line 90): when absent the handler answers
`{"status": "received"}` without touching anything (`none` outcome); when
present it stores the recording URL, forces the status to TRANSCRIBING, and
runs `process_transcription` on the record, whatever its current state.  The
pipeline's published entry (if any) lands in `transcripts` under its fresh
id. -/
def handle_recording_webhook (st : ServerState)
    (CallSid RecordingUrl : String) (env : GatewayEnv) :
    ServerState × Option PipelineResult :=
  match dictGet st.call_records CallSid with
  | none => (st, none)
  | some call_record =>
    let r := { call_record with
      recording_url := some RecordingUrl,
      status := CallStatus.transcribing }
    let res := process_transcription r env
    let st1 : ServerState :=
      { call_records := dictSet st.call_records CallSid res.record,
        transcripts :=
          match res.published with
          | some entry => dictSet st.transcripts entry.id entry
          | none => st.transcripts }
    (st1, some res)

/-- HTTP-visible outcome of main.view_transcript: 404, 410 or the HTML page
carrying the entry's content. -/
inductive ViewOutcome where
  | not_found
  | expired
  | page (content : String)
deriving DecidableEq

/-- main.view_transcript (main.py:157-216).  Missing id answers 404; an entry
whose `expires_at` is set and strictly in the past is deleted and answers 410;
otherwise the HTML page built around the entry's content is returned and the
state is untouched. -/
def view_transcript (st : ServerState) (transcript_id : String) (now : Nat) :
    ServerState × ViewOutcome :=
  match dictGet st.transcripts transcript_id with
  | none => (st, ViewOutcome.not_found)
  | some transcript =>
    match transcript.expires_at with
    | some e =>
      if e < now then
        ({ st with transcripts := dictDel st.transcripts transcript_id },
          ViewOutcome.expired)
      else
        (st, ViewOutcome.page transcript.content)
    | none => (st, ViewOutcome.page transcript.content)

/-- Rank realising the spec's ordering INITIATED < RECORDING < TRANSCRIBING <
FORMATTING < COMPLETED, with FAILED placed above every non-terminal state
(reachable from any of them). -/
def statusRank : CallStatus → Nat
  | CallStatus.initiated => 0
  | CallStatus.recording => 1
  | CallStatus.transcribing => 2
  | CallStatus.formatting => 3
  | CallStatus.completed => 4
  | CallStatus.failed => 5

/-- A successful gateway environment: transcription yields "buy milk", the
formatter yields "- Buy milk", the SMS succeeds, fresh transcript id "t2". -/
def envOk : GatewayEnv :=
  { stt := some "buy milk", formatter := some "- Buy milk", summarizer := none,
    sms_ok := true, fresh_id := "t2", now := 10 }

/-- A gateway environment whose only failure is the Twilio SMS send. -/
def envSmsFail : GatewayEnv :=
  { stt := some "buy milk", formatter := some "- Buy milk", summarizer := none,
    sms_ok := false, fresh_id := "t3", now := 10 }

/-- A gateway environment whose speech-to-text call raises. -/
def envSttFail : GatewayEnv :=
  { stt := none, formatter := some "- Buy milk", summarizer := none,
    sms_ok := true, fresh_id := "t4", now := 10 }

/-- A Call Record that has already completed the pipeline and published
Transcript Entry "t1". -/
def recCompleted : CallRecord :=
  { call_sid := "CA1", from_number := "+64210822348",
    to_number := "+6498887777", status := CallStatus.completed,
    recording_url := some "u1", raw_transcript := some "buy milk",
    formatted_transcript := some "- Buy milk", transcript_id := some "t1",
    sms_sent := true, created_at := 0, expires_at := some 7 }

/-- A Call Record that already failed, with its error recorded. -/
def recFailed : CallRecord :=
  { call_sid := "CA1", from_number := "+64210822348",
    to_number := "+6498887777", status := CallStatus.failed,
    recording_url := some "u1",
    error_message := some "Transcription failed" }

/-- A Call Record freshly moved to TRANSCRIBING by the recording webhook. -/
def recTranscribing : CallRecord :=
  { call_sid := "CA1", from_number := "+64210822348",
    to_number := "+6498887777", status := CallStatus.transcribing,
    recording_url := some "u1" }

/-- The Transcript Entry published for `recCompleted`. -/
def entry1 : TranscriptResponse :=
  { id := "t1", content := "- Buy milk", format := TranscriptFormat.notes,
    created_at := 0, expires_at := some 7 }

/-- Server state after call "CA1" completed and published entry "t1". -/
def stCompleted : ServerState :=
  { call_records := [("CA1", recCompleted)], transcripts := [("t1", entry1)] }

/-- Server state holding call "CA1" in the FAILED state. -/
def stFailed : ServerState :=
  { call_records := [("CA1", recFailed)], transcripts := [] }

/-- Server state holding only the published entry "t1". -/
def stEntryOnly : ServerState :=
  { call_records := [], transcripts := [("t1", entry1)] }

theorem dictGet_eq_none {α : Type} (d : List (String × α)) (k : String)
    (h : k ∉ d.map Prod.fst) : dictGet d k = none := by
  induction d with
  | nil => rfl
  | cons hd tl ih =>
    obtain ⟨k', v⟩ := hd
    simp only [List.map_cons, List.mem_cons] at h
    push_neg at h
    simp [dictGet, Ne.symm h.1, ih h.2]

theorem dictGet_dictDel {α : Type} (d : List (String × α)) (k : String)
    (h : (d.map Prod.fst).Nodup) : dictGet (dictDel d k) k = none := by
  induction d with
  | nil => rfl
  | cons hd tl ih =>
    obtain ⟨k', v⟩ := hd
    simp only [List.map_cons, List.nodup_cons] at h
    by_cases hk : k' = k
    · subst hk
      simpa [dictDel] using dictGet_eq_none tl k' h.1
    · simp [dictDel, hk, dictGet, ih h.2]

theorem format_transcript_gateway_failure (raw_text : String)
    (format_type : TranscriptFormat) :
    (format_transcript raw_text format_type none).text = raw_text := by
  by_cases h : format_type = TranscriptFormat.raw <;> simp [format_transcript, h]

theorem pyLen_pyTake_le (s : String) (n : Nat) : pyLen (pyTake s n) ≤ n := by
  simp [pyLen, pyTake, List.length_take]

theorem pyLen_pyTake_of_le (s : String) (n : Nat) (h : n ≤ pyLen s) :
    pyLen (pyTake s n) = n := by
  simp only [pyLen] at h
  simp only [pyLen, pyTake, List.length_take]
  omega

theorem pyLen_append (a b : String) : pyLen (a ++ b) = pyLen a + pyLen b := by
  cases a with | mk la =>
  cases b with | mk lb =>
  show (la ++ lb).length = la.length + lb.length
  exact List.length_append la lb

/-- C1: the claim fails on the code.  Counterexample: call "CA1" is already
COMPLETED (past RECORDING) with its entry "t1" published; a duplicate
recording-complete delivery is not a no-op: it re-runs the pipeline and a
second Transcript Entry "t2" is published, so the store holds two entries for
one call. -/
theorem c1_counterexample :
    recCompleted.status = CallStatus.completed ∧
    stCompleted.transcripts.length = 1 ∧
    (handle_recording_webhook stCompleted "CA1" "u1" envOk).2 ≠ none ∧
    (handle_recording_webhook stCompleted "CA1" "u1" envOk).1.transcripts.length = 2 ∧
    dictGet (handle_recording_webhook stCompleted "CA1" "u1" envOk).1.transcripts "t2" ≠ none := by
  decide

/-- C1 amended: the recording-complete trigger is a no-op exactly when no
Call Record exists for the call_id; presence in `call_records` is the only
guard (the record's state is never consulted), so a duplicate delivery for an
existing record re-runs the whole pipeline, whatever state the record is in. -/
theorem c1_no_op_iff_unknown_call (st : ServerState)
    (CallSid RecordingUrl : String) (env : GatewayEnv) :
    handle_recording_webhook st CallSid RecordingUrl env = (st, none) ↔
      dictGet st.call_records CallSid = none := by
  constructor
  · intro h
    cases hmem : dictGet st.call_records CallSid with
    | none => rfl
    | some call_record =>
      simp [handle_recording_webhook, hmem] at h
  · intro h
    simp [handle_recording_webhook, h]

/-- C2: the claim fails on the code.  Counterexample: call "CA1" is FAILED,
yet a (duplicate) recording-complete event with succeeding gateways drives it
to COMPLETED — FAILED is not absorbing and the state moved out of a terminal
state. -/
theorem c2_counterexample :
    (dictGet stFailed.call_records "CA1").map CallRecord.status =
      some CallStatus.failed ∧
    (dictGet (handle_recording_webhook stFailed "CA1" "u1" envOk).1.call_records
        "CA1").map CallRecord.status = some CallStatus.completed := by
  decide

/-- C2 amended: within a single pipeline run the state does move forward —
a record entering process_transcription (always at TRANSCRIBING, rank 2) ends
at COMPLETED or FAILED, both of higher rank; but the webhook handlers guard
only on dict membership, so duplicate deliveries restart the pipeline from
TRANSCRIBING on COMPLETED or FAILED records (see the counterexample). -/
theorem c2_pipeline_moves_forward (call_record : CallRecord) (env : GatewayEnv) :
    statusRank CallStatus.transcribing ≤
      statusRank (process_transcription call_record env).record.status ∧
    ((process_transcription call_record env).record.status = CallStatus.completed ∨
      (process_transcription call_record env).record.status = CallStatus.failed) := by
  cases h : env.stt with
  | none => simp [process_transcription, h, statusRank]
  | some raw =>
    by_cases hr : raw = ""
    · simp [process_transcription, h, hr, statusRank]
    · simp [process_transcription, h, hr, statusRank]

/-- C3: a voice webhook for a caller rejected by the Eligibility Filter
leaves the server state (in particular the call record store) unchanged, and
the endpoint raises AttributeError.  This holds because the record
construction at main.py:69-74 evaluates `CallStatus.RECORDING` on the str
form parameter shadowing the enum and so raises before the store assignment
— the same happens for accepted callers. -/
theorem c3_rejected_call_leaves_store_unchanged (st : ServerState)
    (CallSid From To CallStatusField : String)
    (h : is_mobile_number From = false) :
    (handle_voice_webhook st CallSid From To CallStatusField).1 = st ∧
    (handle_voice_webhook st CallSid From To CallStatusField).2 =
      VoiceOutcome.attribute_error true := by
  simp [handle_voice_webhook, h]

/-- Witness for C3 at the US number the repository's own tests use. -/
theorem c3_witness :
    (handle_voice_webhook { call_records := [], transcripts := [] }
        "CA9" "+15551234567" "+64123456789" "ringing").1 =
      { call_records := [], transcripts := [] } :=
  (c3_rejected_call_leaves_store_unchanged
    { call_records := [], transcripts := [] }
    "CA9" "+15551234567" "+64123456789" "ringing" (by decide)).1

/-- C4: the claim fails on the code.  Counterexample: transcription and
formatting succeed but the SMS send fails; the record still ends COMPLETED
with `sms_sent = false` and no error recorded, instead of FAILED. -/
theorem c4_counterexample :
    (process_transcription recTranscribing envSmsFail).record.status =
      CallStatus.completed ∧
    (process_transcription recTranscribing envSmsFail).record.sms_sent = false ∧
    (process_transcription recTranscribing envSmsFail).record.error_message =
      none := by
  decide

/-- C4 amended: a Notification Gateway failure is caught inside send_sms
(phone_handler.py:121-148) and surfaced only as the boolean stored in
`sms_sent`; the record still transitions to COMPLETED and its error field is
left untouched — notification failure never drives the record to FAILED. -/
theorem c4_sms_failure_still_completes (call_record : CallRecord)
    (env : GatewayEnv) (raw : String)
    (h : env.stt = some raw) (hr : raw ≠ "") (hs : env.sms_ok = false) :
    (process_transcription call_record env).record.status =
      CallStatus.completed ∧
    (process_transcription call_record env).record.sms_sent = false ∧
    (process_transcription call_record env).record.error_message =
      call_record.error_message := by
  simp [process_transcription, h, hr, hs]

/-- Witness for C4's amended theorem at a concrete record and environment. -/
theorem c4_witness :
    (process_transcription recTranscribing envSmsFail).record.status =
      CallStatus.completed ∧
    (process_transcription recTranscribing envSmsFail).record.sms_sent = false ∧
    (process_transcription recTranscribing envSmsFail).record.error_message =
      recTranscribing.error_message :=
  c4_sms_failure_still_completes recTranscribing envSmsFail "buy milk"
    rfl (by decide) rfl

/-- C5: when transcription succeeds and the Text Formatter Gateway fails, the
pipeline publishes the unformatted raw text as the Transcript Entry content,
stores it as the formatted transcript, and the record still ends COMPLETED:
formatting failure alone never fails the call. -/
theorem c5_formatter_failure_falls_back (call_record : CallRecord)
    (env : GatewayEnv) (raw : String)
    (h : env.stt = some raw) (hr : raw ≠ "") (hf : env.formatter = none) :
    (process_transcription call_record env).record.status =
      CallStatus.completed ∧
    (process_transcription call_record env).record.formatted_transcript =
      some raw ∧
    ((process_transcription call_record env).published.map
      TranscriptResponse.content) = some raw := by
  simp [process_transcription, h, hr, hf, format_transcript_gateway_failure]

/-- Witness for C5 at a concrete record and a failing formatter. -/
theorem c5_witness :
    (process_transcription recTranscribing
        { stt := some "buy milk", formatter := none, summarizer := none,
          sms_ok := true, fresh_id := "t5", now := 10 }).record.status =
      CallStatus.completed ∧
    (process_transcription recTranscribing
        { stt := some "buy milk", formatter := none, summarizer := none,
          sms_ok := true, fresh_id := "t5", now := 10 }).record.formatted_transcript =
      some "buy milk" ∧
    ((process_transcription recTranscribing
        { stt := some "buy milk", formatter := none, summarizer := none,
          sms_ok := true, fresh_id := "t5", now := 10 }).published.map
      TranscriptResponse.content) = some "buy milk" :=
  c5_formatter_failure_falls_back recTranscribing
    { stt := some "buy milk", formatter := none, summarizer := none,
      sms_ok := true, fresh_id := "t5", now := 10 } "buy milk"
    rfl (by decide) rfl

/-- C6: when the Speech-to-Text Gateway raises (or times out — both surface
as None from transcribe_audio) or returns an empty result, the record ends
FAILED with the non-empty error "Transcription failed", no Transcript Entry
is published, and the Notification Gateway is never invoked. -/
theorem c6_stt_failure_fails_closed (call_record : CallRecord)
    (env : GatewayEnv) (h : env.stt = none ∨ env.stt = some "") :
    (process_transcription call_record env).record.status = CallStatus.failed ∧
    (process_transcription call_record env).record.error_message =
      some "Transcription failed" ∧
    ("Transcription failed" : String) ≠ "" ∧
    (process_transcription call_record env).published = none ∧
    (process_transcription call_record env).sms_attempted = false := by
  have hne : ("Transcription failed" : String) ≠ "" := by decide
  rcases h with h | h <;> simp [process_transcription, h, hne]

/-- Witness for C6 at a concrete record and a raising speech-to-text call. -/
theorem c6_witness :
    (process_transcription recTranscribing envSttFail).record.status =
      CallStatus.failed ∧
    (process_transcription recTranscribing envSttFail).record.error_message =
      some "Transcription failed" ∧
    ("Transcription failed" : String) ≠ "" ∧
    (process_transcription recTranscribing envSttFail).published = none ∧
    (process_transcription recTranscribing envSttFail).sms_attempted = false :=
  c6_stt_failure_fails_closed recTranscribing envSttFail (Or.inl rfl)

/-- C7: reading a stored Transcript Entry strictly after its `expires_at`
answers Expired (410) and evicts it, so any later read of the same id answers
NotFound (404); a read at or before `expires_at` answers the page and leaves
the state untouched.  The Nodup hypothesis states that the store's keys are
unique, as Python dict keys are. -/
theorem c7_expiry_read (st : ServerState) (transcript_id : String)
    (t : TranscriptResponse) (e now now2 : Nat)
    (hkeys : (st.transcripts.map Prod.fst).Nodup)
    (hget : dictGet st.transcripts transcript_id = some t)
    (he : t.expires_at = some e) :
    (e < now →
      (view_transcript st transcript_id now).2 = ViewOutcome.expired ∧
      dictGet (view_transcript st transcript_id now).1.transcripts
        transcript_id = none ∧
      (view_transcript (view_transcript st transcript_id now).1
        transcript_id now2).2 = ViewOutcome.not_found) ∧
    (now ≤ e →
      view_transcript st transcript_id now = (st, ViewOutcome.page t.content)) := by
  have hdel : dictGet (dictDel st.transcripts transcript_id) transcript_id =
      none := dictGet_dictDel st.transcripts transcript_id hkeys
  constructor
  · intro hlt
    refine ⟨?_, ?_, ?_⟩
    · simp [view_transcript, hget, he, hlt]
    · simp [view_transcript, hget, he, hlt, hdel]
    · have h1 : (view_transcript st transcript_id now).1 =
          { st with transcripts := dictDel st.transcripts transcript_id } := by
        simp [view_transcript, hget, he, hlt]
      rw [h1]
      simp [view_transcript, hdel]
  · intro hle
    have hnlt : ¬ e < now := by omega
    simp [view_transcript, hget, he, hnlt]

/-- Witness for C7: entry "t1" expires at 7; reading at 8 answers Expired and
evicts, a second read at 9 answers NotFound; reading at 7 answers the page. -/
theorem c7_witness :
    ((7 < 8 →
      (view_transcript stEntryOnly "t1" 8).2 = ViewOutcome.expired ∧
      dictGet (view_transcript stEntryOnly "t1" 8).1.transcripts "t1" = none ∧
      (view_transcript (view_transcript stEntryOnly "t1" 8).1 "t1" 9).2 =
        ViewOutcome.not_found) ∧
    (8 ≤ 7 →
      view_transcript stEntryOnly "t1" 8 = (stEntryOnly, ViewOutcome.page entry1.content))) ∧
    ((7 < 7 →
      (view_transcript stEntryOnly "t1" 7).2 = ViewOutcome.expired ∧
      dictGet (view_transcript stEntryOnly "t1" 7).1.transcripts "t1" = none ∧
      (view_transcript (view_transcript stEntryOnly "t1" 7).1 "t1" 9).2 =
        ViewOutcome.not_found) ∧
    (7 ≤ 7 →
      view_transcript stEntryOnly "t1" 7 = (stEntryOnly, ViewOutcome.page entry1.content))) :=
  ⟨c7_expiry_read stEntryOnly "t1" entry1 7 8 9 (by decide) rfl rfl,
   c7_expiry_read stEntryOnly "t1" entry1 7 7 9 (by decide) rfl rfl⟩

/-- C8: the claim fails on the code.  Counterexample: for text "abcde" and
bound 3 with a failing summarisation gateway, the result is "abc..." of
length 6, exceeding the bound. -/
theorem c8_counterexample :
    generate_summary "abcde" 3 none = "abc..." ∧
    pyLen (generate_summary "abcde" 3 none) = 6 ∧
    ¬ pyLen (generate_summary "abcde" 3 none) ≤ 3 := by
  decide

/-- C8 amended: the digest is the text itself when it already fits; it is at
most max_length whenever the summarisation gateway succeeds (or the text
fits); but when the gateway fails on an over-long text the result is the
truncation with "..." appended, of length exactly max_length + 3, exceeding
the bound. -/
theorem c8_summary_bound (text : String) (max_length : Nat)
    (gw : Option String) :
    (pyLen text ≤ max_length → generate_summary text max_length gw = text) ∧
    (∀ s, gw = some s →
      pyLen (generate_summary text max_length gw) ≤ max_length) ∧
    (max_length < pyLen text → gw = none →
      generate_summary text max_length gw = pyTake text max_length ++ "..." ∧
      pyLen (generate_summary text max_length gw) = max_length + 3) := by
  refine ⟨?_, ?_, ?_⟩
  · intro h
    simp [generate_summary, h]
  · intro s hs
    by_cases h : pyLen text ≤ max_length
    · simp [generate_summary, h]
    · simp only [generate_summary, if_neg h, hs]
      exact pyLen_pyTake_le s max_length
  · intro h1 h2
    have h : ¬ pyLen text ≤ max_length := by omega
    constructor
    · simp [generate_summary, h, h1, h2]
    · have : generate_summary text max_length gw =
          pyTake text max_length ++ "..." := by
        simp [generate_summary, h, h1, h2]
      rw [this, pyLen_append, pyLen_pyTake_of_le text max_length (by omega)]
      rfl

/-- C9: the Eligibility Filter's decision depends only on the caller
identifier with spaces, hyphens and parentheses removed: two identifiers with
the same underlying character sequence after stripping those formatting
characters receive the same accept/reject decision. -/
theorem c9_format_invariant (s1 s2 : String)
    (h : clean_number s1 = clean_number s2) :
    is_mobile_number s1 = is_mobile_number s2 := by
  simp [is_mobile_number, h]

/-- Witness for C9 at the spec's example number in two formattings (both
accepted) and a rejected number in two formattings. -/
theorem c9_witness :
    is_mobile_number "+64 21-082 2348" = is_mobile_number "+64210822348" ∧
    is_mobile_number "+64210822348" = true ∧
    is_mobile_number "(+1) 555-123-4567" = is_mobile_number "+15551234567" ∧
    is_mobile_number "+15551234567" = false :=
  ⟨c9_format_invariant "+64 21-082 2348" "+64210822348" (by decide),
   by decide,
   c9_format_invariant "(+1) 555-123-4567" "+15551234567" (by decide),
   by decide⟩

/-- C10: formatting with the RAW style returns the raw text unchanged and
never invokes the formatter gateway (the early return at
transcription.py:94-95 precedes the try block containing the gateway call). -/
theorem c10_raw_is_identity (raw_text : String) (gw : Option String) :
    format_transcript raw_text TranscriptFormat.raw gw =
      { text := raw_text, gateway_invoked := false } := by
  simp [format_transcript]
